import Mathlib

/-!
Verification of the `prometheus-macros` crate (src/lib.rs): the generic
`Opts` builder, the `TryFrom<Opts>` converter family generated by the
`impl_try_from!` and `impl_try_from_vec!` macros, and the registration
loop generated by the `composite_metric!` macro.

Modelling conventions:
- Rust `&str` values are modelled as `String` (the crate only stores and
  forwards them).
- Rust `f64` bucket boundaries are passed through by the crate without any
  arithmetic, so an `f64` is modelled by its bit pattern (`F64`).
- The prometheus engine (the external crate) is modelled at its interface:
  a converter produces the exact construction call handed to the engine
  (`EngineCall`), and engine-side behaviour (construction success and
  registry registration) is a parameter of the theorems.
-/

namespace PromMacros

/-- An `f64` value as handled by this crate: never computed with, only
stored and forwarded, so it is identified with its 64-bit pattern. -/
structure F64 where
  bits : Nat
deriving DecidableEq, Repr

/-- The nine concrete prometheus metric types that receive a
`TryFrom<Opts>` implementation in src/lib.rs (lines 177-180 and 205-209). -/
inductive MetricKind where
  | counter
  | intGauge
  | gauge
  | histogram
  | intCounterVec
  | counterVec
  | gaugeVec
  | intGaugeVec
  | histogramVec
deriving DecidableEq, Repr

/-- Kinds whose impl is generated by `impl_try_from_vec!` (lines 205-209). -/
def MetricKind.isVec : MetricKind → Bool
  | .intCounterVec | .counterVec | .gaugeVec | .intGaugeVec | .histogramVec => true
  | _ => false

/-- Kinds whose impl is generated by `impl_try_from!` (lines 177-180):
the scalar (non-vector) kinds. -/
def MetricKind.isScalar : MetricKind → Bool
  | .counter | .intGauge | .gauge | .histogram => true
  | _ => false

/-- Kinds constructed through `HistogramOpts` (the `buckets` param of the
two impl macros): `Histogram` and `HistogramVec`. -/
def MetricKind.isHistogramKind : MetricKind → Bool
  | .histogram | .histogramVec => true
  | _ => false

/-- The crate's `Opts<'a>` struct (src/lib.rs lines 129-134): name, help
text, optional label list, optional bucket list. -/
structure Opts where
  name : String
  desc : String
  labels : Option (List String)
  buckets : Option (List F64)
deriving DecidableEq, Repr

/-- `#[derive(Default)]` on `Opts`: empty strings, both options `None`. -/
def Opts.default : Opts :=
  { name := "", desc := "", labels := none, buckets := none }

/-- `Opts::new` (src/lib.rs lines 138-144): fills name and desc, the rest
from `Self::default()`. -/
def Opts.new (name desc : String) : Opts :=
  { Opts.default with name := name, desc := desc }

/-- `Opts::with_labels` (src/lib.rs lines 147-150):
`self.labels = labels.into()`, i.e. `Some(labels)`, then returns self. -/
def Opts.with_labels (o : Opts) (labels : List String) : Opts :=
  { o with labels := some labels }

/-- `Opts::with_buckets` (src/lib.rs lines 153-156):
`self.buckets = buckets.into()`, i.e. `Some(buckets)`, then returns self. -/
def Opts.with_buckets (o : Opts) (buckets : List F64) : Opts :=
  { o with buckets := some buckets }

/-- `prometheus::Error`, modelled at the interface boundary: the crate
itself only ever constructs the `Msg` variant; other engine-side errors
(registration conflicts, name syntax, ...) are abstracted by the
remaining constructors. -/
inductive PromError where
  | msg : String → PromError
  | alreadyReg : PromError
  | other : Nat → PromError
deriving DecidableEq, Repr

/-- `prometheus::Opts` as seeded by this crate: `Opts::new(name, desc)`
only sets the name and help fields. -/
structure PrometheusOpts where
  name : String
  help : String
deriving DecidableEq, Repr

/-- `prometheus::Opts::new(name, help)`. -/
def PrometheusOpts.new (name help : String) : PrometheusOpts :=
  { name := name, help := help }

/-- `prometheus::HistogramOpts` as seeded by this crate: common opts plus
a bucket list. `HistogramOpts::new` initialises `buckets` with the
engine's default bucket set, which is external to this crate and hence a
parameter (`engineDefault`) of the model. -/
structure HistogramOpts where
  common : PrometheusOpts
  buckets : List F64
deriving DecidableEq, Repr

/-- `prometheus::HistogramOpts::new(name, help)`, with the engine-side
default bucket set passed in explicitly. -/
def HistogramOpts.new (engineDefault : List F64) (name help : String) : HistogramOpts :=
  { common := PrometheusOpts.new name help, buckets := engineDefault }

/-- The exact construction call this crate hands to the prometheus engine
at the end of a `try_from`: the target metric type, the options value the
engine constructor receives (`histBuckets = some _` exactly when the
constructor receives a `HistogramOpts`), and, for the `::new` vector
constructors, the label-dimension list (`vecLabels = some _` exactly for
vector kinds). -/
structure EngineCall where
  kind : MetricKind
  optsName : String
  optsHelp : String
  histBuckets : Option (List F64)
  vecLabels : Option (List String)
deriving DecidableEq, Repr

/-- The error value built at src/lib.rs line 197:
`prometheus::Error::Msg("vec requires one or more labels".to_owned())`. -/
def vecLabelsError : PromError :=
  PromError.msg "vec requires one or more labels"

/-- Expansion of `impl_try_from!($k, PrometheusOpts)` (no extra params):
`Counter`, `IntGauge`, `Gauge`. Builds `PrometheusOpts::new(name, desc)`
and calls `$k::with_opts` on it. -/
def tryFromPlain (k : MetricKind) (o : Opts) : Except PromError EngineCall :=
  let promOpts := PrometheusOpts.new o.name o.desc
  Except.ok
    { kind := k, optsName := promOpts.name, optsHelp := promOpts.help,
      histBuckets := none, vecLabels := none }

/-- Expansion of `impl_try_from!(Histogram, HistogramOpts, buckets)`:
builds `HistogramOpts::new(name, desc)` (buckets = engine default), then
`if let Some(param) = opts.buckets { prom_opts.buckets = param.into(); }`,
then calls `Histogram::with_opts`. -/
def tryFromHist (engineDefault : List F64) (o : Opts) : Except PromError EngineCall :=
  let promOpts := HistogramOpts.new engineDefault o.name o.desc
  let promOpts :=
    match o.buckets with
    | some bs => { promOpts with buckets := bs }
    | none => promOpts
  Except.ok
    { kind := MetricKind.histogram, optsName := promOpts.common.name,
      optsHelp := promOpts.common.help, histBuckets := some promOpts.buckets,
      vecLabels := none }

/-- Expansion of `impl_try_from_vec!($k, PrometheusOpts)` (no extra
params): `IntCounterVec`, `CounterVec`, `GaugeVec`, `IntGaugeVec`. Builds
`PrometheusOpts::new(name, desc)` and calls
`$k::new(prom_opts.into(), opts.labels.ok_or_else(|| Msg("vec requires one or more labels"))?)`. -/
def tryFromPlainVec (k : MetricKind) (o : Opts) : Except PromError EngineCall :=
  let promOpts := PrometheusOpts.new o.name o.desc
  match o.labels with
  | none => Except.error vecLabelsError
  | some ls =>
      Except.ok
        { kind := k, optsName := promOpts.name, optsHelp := promOpts.help,
          histBuckets := none, vecLabels := some ls }

/-- Expansion of `impl_try_from_vec!(HistogramVec, HistogramOpts, buckets)`:
like `tryFromHist` for the opts, plus the mandatory-labels check of the
vector macro. -/
def tryFromHistVec (engineDefault : List F64) (o : Opts) : Except PromError EngineCall :=
  let promOpts := HistogramOpts.new engineDefault o.name o.desc
  let promOpts :=
    match o.buckets with
    | some bs => { promOpts with buckets := bs }
    | none => promOpts
  match o.labels with
  | none => Except.error vecLabelsError
  | some ls =>
      Except.ok
        { kind := MetricKind.histogramVec, optsName := promOpts.common.name,
          optsHelp := promOpts.common.help, histBuckets := some promOpts.buckets,
          vecLabels := some ls }

/-- The full `TryFrom<Opts>` family: one arm per `impl_try_from!` /
`impl_try_from_vec!` invocation (src/lib.rs lines 177-180, 205-209),
returning the engine construction call the impl would make. -/
def tryFromOpts (engineDefault : List F64) : MetricKind → Opts → Except PromError EngineCall
  | .counter, o => tryFromPlain .counter o
  | .intGauge, o => tryFromPlain .intGauge o
  | .gauge, o => tryFromPlain .gauge o
  | .histogram, o => tryFromHist engineDefault o
  | .intCounterVec, o => tryFromPlainVec .intCounterVec o
  | .counterVec, o => tryFromPlainVec .counterVec o
  | .gaugeVec, o => tryFromPlainVec .gaugeVec o
  | .intGaugeVec, o => tryFromPlainVec .intGaugeVec o
  | .histogramVec, o => tryFromHistVec engineDefault o

/-- The complete `try_from` result, including the engine side: the core
either fails on its own labels check (`tryFromOpts`) or issues the
construction call, which the engine (`engine`, a parameter: name syntax
checks, bucket validation, ...) may in turn reject. On success the
constructed metric handle is identified with its construction call. -/
def tryFromFull (engineDefault : List F64) (engine : EngineCall → Except PromError Unit)
    (k : MetricKind) (o : Opts) : Except PromError EngineCall :=
  match tryFromOpts engineDefault k o with
  | Except.error e => Except.error e
  | Except.ok call =>
      match engine call with
      | Except.error e => Except.error e
      | Except.ok _ => Except.ok call

/-- One declared field of a `composite_metric!` block: the Rust field
name, the `#[name = ...]` and `#[desc = ...]` literals, the optional
`#[labels = ...]` and `#[buckets = ...]` attributes (absent attribute =
`none`), and the field's metric type. -/
structure Field where
  fieldName : String
  promName : String
  promDesc : String
  labels : Option (List String)
  buckets : Option (List F64)
  kind : MetricKind
deriving DecidableEq, Repr

/-- The options-building steps of the macro body (src/lib.rs lines
97-105): `Opts::new($prom_name, $prom_desc)`, then `.with_labels` only if
the labels attribute is present, then `.with_buckets` only if the buckets
attribute is present. -/
def Field.buildOpts (f : Field) : Opts :=
  let opts := Opts.new f.promName f.promDesc
  let opts :=
    match f.labels with
    | some ls => opts.with_labels ls
    | none => opts
  match f.buckets with
  | some bs => opts.with_buckets bs
  | none => opts

/-- Outcome of the generated `register` function over a registry-state
type `σ`: `ok` returns the final registry state and the container (one
(field name, metric handle) pair per field, in declaration order); `err`
is an early `return Err(e)` (from `registry.register(...)?`) leaving the
registry in the carried state; `panicked` is the `.unwrap()` on the
conversion result blowing up with the carried error, likewise leaving the
registry in the carried state. -/
inductive RegOutcome (σ : Type) where
  | ok : σ → List (String × EngineCall) → RegOutcome σ
  | err : σ → PromError → RegOutcome σ
  | panicked : σ → PromError → RegOutcome σ
deriving DecidableEq, Repr

/-- Whether the outcome is an `Err` return of the `register` function. -/
def RegOutcome.returnsErr {σ : Type} : RegOutcome σ → Bool
  | RegOutcome.err _ _ => true
  | _ => false

/-- The per-field loop of the generated `register` (src/lib.rs lines
96-108), threading the registry state: build the field's opts, run
`opts.try_into().unwrap()` (conversion or engine-construction failure
PANICS, it is not propagated), then `registry.register(Box::new(m.clone()))?`
(registration failure returns `Err`). `regF` is the external registry's
`register` at the interface boundary. -/
def registerLoop {σ : Type} (engineDefault : List F64)
    (engine : EngineCall → Except PromError Unit)
    (regF : σ → EngineCall → Except PromError σ) :
    List Field → σ → List (String × EngineCall) → RegOutcome σ
  | [], st, acc => RegOutcome.ok st acc.reverse
  | f :: fs, st, acc =>
      match tryFromFull engineDefault engine f.kind f.buildOpts with
      | Except.error e => RegOutcome.panicked st e
      | Except.ok call =>
          match regF st call with
          | Except.error e => RegOutcome.err st e
          | Except.ok st' =>
              registerLoop engineDefault engine regF fs st' ((f.fieldName, call) :: acc)

/-- The generated `register(registry)` entry point (src/lib.rs lines
95-115): run the loop over the declared fields and, when every field
succeeded, assemble the container. -/
def register {σ : Type} (engineDefault : List F64)
    (engine : EngineCall → Except PromError Unit)
    (regF : σ → EngineCall → Except PromError σ)
    (fields : List Field) (st : σ) : RegOutcome σ :=
  registerLoop engineDefault engine regF fields st []

/-- A run over fields in which every field converts, constructs and
registers successfully: returns the resulting registry state and the
constructed (field name, handle) pairs in declaration order, `none` as
soon as any step fails. Used to talk about the successful part of a
`register` call before its first failure. -/
def runAllOk {σ : Type} (engineDefault : List F64)
    (engine : EngineCall → Except PromError Unit)
    (regF : σ → EngineCall → Except PromError σ) :
    List Field → σ → Option (σ × List (String × EngineCall))
  | [], st => some (st, [])
  | f :: fs, st =>
      match tryFromFull engineDefault engine f.kind f.buildOpts with
      | Except.error _ => none
      | Except.ok call =>
          match regF st call with
          | Except.error _ => none
          | Except.ok st' =>
              (runAllOk engineDefault engine regF fs st').map
                (fun p => (p.1, (f.fieldName, call) :: p.2))

/-- A concrete model registry for witnesses: the state is the list of
registered metric names, and registration fails exactly on a duplicate
name (the collision behaviour the spec attributes to the external
registry). -/
def modelRegF (st : List String) (c : EngineCall) : Except PromError (List String) :=
  if st.contains c.optsName then Except.error PromError.alreadyReg
  else Except.ok (st ++ [c.optsName])

/-- A concrete model engine for witnesses that accepts every construction
call. -/
def modelEngine (_ : EngineCall) : Except PromError Unit :=
  Except.ok ()

/-- Example declaration: a scalar gauge field named `a`. -/
def exGaugeA : Field :=
  { fieldName := "g1", promName := "a", promDesc := "da",
    labels := none, buckets := none, kind := MetricKind.gauge }

/-- The engine call `exGaugeA` gives rise to. -/
def exCallA : EngineCall :=
  { kind := MetricKind.gauge, optsName := "a", optsHelp := "da",
    histBuckets := none, vecLabels := none }

/-- Example declaration: a gauge-vector field without a labels attribute. -/
def exVecNoLabels : Field :=
  { fieldName := "v1", promName := "v", promDesc := "dv",
    labels := none, buckets := none, kind := MetricKind.gaugeVec }

/-- Example declaration: a second scalar gauge reusing the prometheus
name `a` (collides with `exGaugeA` in the model registry). -/
def exGaugeDup : Field :=
  { fieldName := "g2", promName := "a", promDesc := "db",
    labels := none, buckets := none, kind := MetricKind.gauge }

/-- The engine call `exGaugeDup` gives rise to. -/
def exCallDup : EngineCall :=
  { kind := MetricKind.gauge, optsName := "a", optsHelp := "db",
    histBuckets := none, vecLabels := none }

theorem registerLoop_after_ok {σ : Type} {d : List F64}
    {E : EngineCall → Except PromError Unit} {R : σ → EngineCall → Except PromError σ}
    (pre : List Field) :
    ∀ (rest : List Field) (st st' : σ) (cs acc : List (String × EngineCall)),
      runAllOk d E R pre st = some (st', cs) →
      registerLoop d E R (pre ++ rest) st acc
        = registerLoop d E R rest st' (cs.reverse ++ acc) := by
  induction pre with
  | nil =>
      intro rest st st' cs acc h
      simp [runAllOk] at h
      obtain ⟨rfl, rfl⟩ := h
      simp
  | cons f pre ih =>
      intro rest st st' cs acc h
      simp only [runAllOk] at h
      cases hc : tryFromFull d E f.kind f.buildOpts with
      | error e => simp [hc] at h
      | ok call =>
          simp only [hc] at h
          cases hr : R st call with
          | error e => simp [hr] at h
          | ok st1 =>
              simp only [hr] at h
              cases hrun : runAllOk d E R pre st1 with
              | none => simp [hrun] at h
              | some p =>
                  obtain ⟨st2, cs2⟩ := p
                  simp only [hrun, Option.map_some] at h
                  injection h with h
                  obtain ⟨rfl, rfl⟩ := Prod.mk.injEq .. |>.mp h
                  simp only [List.cons_append, registerLoop, hc, hr, List.append_eq]
                  rw [ih rest st1 st2 cs2 ((f.fieldName, call) :: acc) hrun]
                  congr 1
                  simp

/-- Claim C6: `Opts::new(name, description)` is total (it is a plain Lean
function), always succeeds, and returns an Options whose name and
description are the given arguments and whose labels and buckets fields
are both absent. -/
theorem c6_new_initializes (name desc : String) :
    Opts.new name desc
      = { name := name, desc := desc, labels := none, buckets := none } := rfl

/-- Claim C7: `with_labels` sets exactly the labels field and
`with_buckets` sets exactly the buckets field; every other field is
unchanged; both are pure value transformations with no validation of
their argument. -/
theorem c7_builder_frame (o : Opts) (ls : List String) (bs : List F64) :
    (o.with_labels ls).labels = some ls
      ∧ (o.with_labels ls).name = o.name
      ∧ (o.with_labels ls).desc = o.desc
      ∧ (o.with_labels ls).buckets = o.buckets
      ∧ (o.with_buckets bs).buckets = some bs
      ∧ (o.with_buckets bs).name = o.name
      ∧ (o.with_buckets bs).desc = o.desc
      ∧ (o.with_buckets bs).labels = o.labels :=
  ⟨rfl, rfl, rfl, rfl, rfl, rfl, rfl, rfl⟩

/-- Claim C10: chained `with_labels` calls overwrite (last write wins),
and likewise for `with_buckets`. -/
theorem c10_builder_overwrite (o : Opts) (l1 l2 : List String) (b1 b2 : List F64) :
    (o.with_labels l1).with_labels l2 = o.with_labels l2
      ∧ (o.with_buckets b1).with_buckets b2 = o.with_buckets b2 :=
  ⟨rfl, rfl⟩

/-- Claim C4: the scalar-kind conversions (Counter, Gauge, IntGauge,
Histogram) never read the labels field: the complete conversion result
(core plus any engine behaviour E) is the same with the labels field
erased, and the core side never fails for a scalar kind, so the presence
of labels never causes a failure. -/
theorem c4_scalar_ignores_labels (d : List F64) (E : EngineCall → Except PromError Unit)
    (k : MetricKind) (o : Opts) (hk : k.isScalar = true) :
    tryFromFull d E k o = tryFromFull d E k { o with labels := none }
      ∧ ∃ call, tryFromOpts d k o = Except.ok call := by
  cases k <;>
    simp_all [MetricKind.isScalar, tryFromFull, tryFromOpts, tryFromPlain, tryFromHist]

/-- Witness for C4 at a concrete scalar kind and an Options value that
carries a label list. -/
theorem c4_witness :
    MetricKind.isScalar MetricKind.counter = true
      ∧ (tryFromFull [] modelEngine MetricKind.counter
            ((Opts.new "n" "d").with_labels ["l1"])
          = tryFromFull [] modelEngine MetricKind.counter
            { (Opts.new "n" "d").with_labels ["l1"] with labels := none }
        ∧ ∃ call, tryFromOpts [] MetricKind.counter ((Opts.new "n" "d").with_labels ["l1"])
            = Except.ok call) :=
  ⟨rfl, c4_scalar_ignores_labels [] modelEngine MetricKind.counter
    ((Opts.new "n" "d").with_labels ["l1"]) rfl⟩

/-- Claim C9: the non-histogram conversions (Counter, Gauge, IntGauge,
IntCounterVec, CounterVec, GaugeVec, IntGaugeVec) never read the buckets
field: the complete conversion result (core plus any engine behaviour E)
is the same with the buckets field erased, so supplying buckets for such
a kind never causes a failure and yields the same constructed metric. -/
theorem c9_nonhistogram_ignores_buckets (d : List F64)
    (E : EngineCall → Except PromError Unit) (k : MetricKind) (o : Opts)
    (hk : k.isHistogramKind = false) :
    tryFromFull d E k o = tryFromFull d E k { o with buckets := none } := by
  cases k <;> cases hl : o.labels <;>
    simp_all [MetricKind.isHistogramKind, tryFromFull, tryFromOpts, tryFromPlain,
      tryFromPlainVec]

/-- Witness for C9 at a concrete non-histogram kind and an Options value
that carries a bucket list. -/
theorem c9_witness :
    MetricKind.isHistogramKind MetricKind.counterVec = false
      ∧ tryFromFull [] modelEngine MetricKind.counterVec
          (((Opts.new "n" "d").with_labels ["l1"]).with_buckets [⟨1⟩])
        = tryFromFull [] modelEngine MetricKind.counterVec
          { ((Opts.new "n" "d").with_labels ["l1"]).with_buckets [⟨1⟩] with buckets := none } :=
  ⟨rfl, c9_nonhistogram_ignores_buckets [] modelEngine MetricKind.counterVec
    (((Opts.new "n" "d").with_labels ["l1"]).with_buckets [⟨1⟩]) rfl⟩

/-- Claim C5: whenever a histogram-kind conversion (Histogram or
HistogramVec) succeeds, the buckets field of the HistogramOpts handed to
the engine is the declared bucket list when present, and the engine's
default bucket set (the parameter d) when absent. -/
theorem c5_histogram_buckets_passthrough (d : List F64) (k : MetricKind) (o : Opts)
    (call : EngineCall) (hk : k.isHistogramKind = true)
    (hconv : tryFromOpts d k o = Except.ok call) :
    call.histBuckets = some (o.buckets.getD d) := by
  cases k <;> simp_all [MetricKind.isHistogramKind] <;>
    cases hb : o.buckets <;> cases hl : o.labels <;>
      simp_all [tryFromOpts, tryFromHist, tryFromHistVec, HistogramOpts.new,
        PrometheusOpts.new] <;>
        (subst hconv; rfl)

/-- Witness for C5: a Histogram conversion with explicit buckets passes
exactly those boundaries to the engine. -/
theorem c5_witness :
    MetricKind.isHistogramKind MetricKind.histogram = true
      ∧ tryFromOpts [⟨0⟩] MetricKind.histogram ((Opts.new "n" "d").with_buckets [⟨1⟩, ⟨2⟩])
        = Except.ok
            { kind := MetricKind.histogram, optsName := "n", optsHelp := "d",
              histBuckets := some [⟨1⟩, ⟨2⟩], vecLabels := none }
      ∧ EngineCall.histBuckets
            { kind := MetricKind.histogram, optsName := "n", optsHelp := "d",
              histBuckets := some [⟨1⟩, ⟨2⟩], vecLabels := none }
          = some (Opts.buckets ((Opts.new "n" "d").with_buckets [⟨1⟩, ⟨2⟩]) |>.getD [⟨0⟩]) :=
  ⟨rfl, rfl,
    c5_histogram_buckets_passthrough [⟨0⟩] MetricKind.histogram
      ((Opts.new "n" "d").with_buckets [⟨1⟩, ⟨2⟩])
      { kind := MetricKind.histogram, optsName := "n", optsHelp := "d",
        histBuckets := some [⟨1⟩, ⟨2⟩], vecLabels := none } rfl rfl⟩

/-- Claim C8: `with_labels` applied to an empty sequence succeeds with no
immediate error (labels becomes present-but-empty), and a subsequent
vector-kind conversion does not fail with the core's mandatory-labels
validation error: the core only checks presence, and the empty label list
is forwarded unchanged to the engine construction call. -/
theorem c8_empty_labels_forwarded (d : List F64) (k : MetricKind) (o : Opts)
    (hk : k.isVec = true) :
    (o.with_labels []).labels = some []
      ∧ tryFromOpts d k (o.with_labels []) ≠ Except.error vecLabelsError
      ∧ ∃ call, tryFromOpts d k (o.with_labels []) = Except.ok call
          ∧ call.vecLabels = some [] := by
  refine ⟨rfl, ?_, ?_⟩ <;>
    cases k <;>
      cases hb : o.buckets <;>
        simp_all [MetricKind.isVec, tryFromOpts, tryFromPlainVec, tryFromHistVec,
          Opts.with_labels]

/-- Witness for C8 at a concrete vector kind. -/
theorem c8_witness :
    MetricKind.isVec MetricKind.intGaugeVec = true
      ∧ ((Opts.new "n" "d").with_labels []).labels = some []
      ∧ tryFromOpts [] MetricKind.intGaugeVec ((Opts.new "n" "d").with_labels [])
          ≠ Except.error vecLabelsError
      ∧ ∃ call,
          tryFromOpts [] MetricKind.intGaugeVec ((Opts.new "n" "d").with_labels [])
              = Except.ok call
            ∧ call.vecLabels = some [] :=
  ⟨rfl, c8_empty_labels_forwarded [] MetricKind.intGaugeVec (Opts.new "n" "d") rfl⟩

/-- Counterexample for C2: the construction error produced for a
labels-less vector conversion carries the message
"vec requires one or more labels", not the claimed
"vector requires one or more labels". -/
theorem c2_counterexample :
    tryFromOpts [] MetricKind.intCounterVec (Opts.new "n" "d")
        = Except.error (PromError.msg "vec requires one or more labels")
      ∧ tryFromOpts [] MetricKind.intCounterVec (Opts.new "n" "d")
        ≠ Except.error (PromError.msg "vector requires one or more labels") := by
  constructor
  · rfl
  · intro h
    exact absurd (PromError.msg.inj (Except.error.inj h)) (by decide)

/-- Claim C2 (amended): for every Options whose labels field is absent,
every vector-kind conversion fails with a construction error carrying
exactly the message "vec requires one or more labels", regardless of the
name, description, and buckets fields. -/
theorem c2_vec_requires_labels (d : List F64) (k : MetricKind) (o : Opts)
    (hk : k.isVec = true) (hl : o.labels = none) :
    tryFromOpts d k o
      = Except.error (PromError.msg "vec requires one or more labels") := by
  cases k <;>
    cases hb : o.buckets <;>
      simp_all [MetricKind.isVec, tryFromOpts, tryFromPlainVec, tryFromHistVec,
        vecLabelsError]

/-- Witness for C2 (amended) at a concrete vector kind and Options. -/
theorem c2_witness :
    MetricKind.isVec MetricKind.histogramVec = true
      ∧ (Opts.new "n" "d").labels = none
      ∧ tryFromOpts [] MetricKind.histogramVec (Opts.new "n" "d")
        = Except.error (PromError.msg "vec requires one or more labels") :=
  ⟨rfl, rfl, c2_vec_requires_labels [] MetricKind.histogramVec (Opts.new "n" "d") rfl rfl⟩

/-- Counterexample for C1: for the one-field declaration consisting of a
gauge-vector without labels, the converter fails, but the generated
`register` does not return that error as the Err of its Result: the
`.unwrap()` on the conversion result panics instead. -/
theorem c1_counterexample :
    register [] modelEngine modelRegF [exVecNoLabels] ([] : List String)
        = RegOutcome.panicked [] vecLabelsError
      ∧ RegOutcome.returnsErr
          (register [] modelEngine modelRegF [exVecNoLabels] ([] : List String))
        = false :=
  ⟨rfl, rfl⟩

/-- Claim C1 (amended): when the Typed Converter for some field fails
during register (after every earlier field converted and registered
successfully), the operation aborts immediately with a panic carrying the
converter's error — the `.unwrap()` on the conversion result — rather
than returning that error as the Err of the Result; metrics already
registered in this call stay registered (the registry is left in the
state reached before the failing field). -/
theorem c1_converter_failure_panics {σ : Type} (d : List F64)
    (E : EngineCall → Except PromError Unit) (R : σ → EngineCall → Except PromError σ)
    (pre post : List Field) (f : Field) (st st' : σ)
    (cs : List (String × EngineCall)) (e : PromError)
    (hpre : runAllOk d E R pre st = some (st', cs))
    (hconv : tryFromFull d E f.kind f.buildOpts = Except.error e) :
    register d E R (pre ++ f :: post) st = RegOutcome.panicked st' e := by
  unfold register
  rw [registerLoop_after_ok pre (f :: post) st st' cs [] hpre]
  simp [registerLoop, hconv]

/-- Witness for C1 (amended): a gauge followed by a labels-less
gauge-vector; the gauge converts and registers, then the vector
conversion error makes register panic, with the gauge still registered. -/
theorem c1_witness :
    runAllOk [] modelEngine modelRegF [exGaugeA] ([] : List String)
        = some (["a"], [("g1", exCallA)])
      ∧ tryFromFull [] modelEngine exVecNoLabels.kind exVecNoLabels.buildOpts
        = Except.error vecLabelsError
      ∧ register [] modelEngine modelRegF [exGaugeA, exVecNoLabels] ([] : List String)
        = RegOutcome.panicked ["a"] vecLabelsError :=
  ⟨rfl, rfl,
    c1_converter_failure_panics [] modelEngine modelRegF [exGaugeA] [] exVecNoLabels
      [] ["a"] [("g1", exCallA)] vecLabelsError rfl rfl⟩

/-- Claim C3: if the k-th constructed metric fails to register with the
registry (after fields 1..k-1 converted and registered successfully),
register aborts immediately with Err carrying the registry's error
unchanged, returns no container, and leaves the registry exactly in the
state reached after registering fields 1..k-1 (no rollback). -/
theorem c3_registration_failure_propagates {σ : Type} (d : List F64)
    (E : EngineCall → Except PromError Unit) (R : σ → EngineCall → Except PromError σ)
    (pre post : List Field) (f : Field) (st st' : σ)
    (cs : List (String × EngineCall)) (call : EngineCall) (e : PromError)
    (hpre : runAllOk d E R pre st = some (st', cs))
    (hconv : tryFromFull d E f.kind f.buildOpts = Except.ok call)
    (hreg : R st' call = Except.error e) :
    register d E R (pre ++ f :: post) st = RegOutcome.err st' e := by
  unfold register
  rw [registerLoop_after_ok pre (f :: post) st st' cs [] hpre]
  simp [registerLoop, hconv, hreg]

/-- Witness for C3: two gauges with the same prometheus name against the
duplicate-detecting model registry; the second registration fails, the
registry error comes back unchanged as Err, and the first gauge's name is
still in the registry state. -/
theorem c3_witness :
    runAllOk [] modelEngine modelRegF [exGaugeA] ([] : List String)
        = some (["a"], [("g1", exCallA)])
      ∧ tryFromFull [] modelEngine exGaugeDup.kind exGaugeDup.buildOpts
        = Except.ok exCallDup
      ∧ modelRegF ["a"] exCallDup = Except.error PromError.alreadyReg
      ∧ register [] modelEngine modelRegF [exGaugeA, exGaugeDup] ([] : List String)
        = RegOutcome.err ["a"] PromError.alreadyReg :=
  ⟨rfl, rfl, rfl,
    c3_registration_failure_propagates [] modelEngine modelRegF [exGaugeA] [] exGaugeDup
      [] ["a"] [("g1", exCallA)] exCallDup PromError.alreadyReg rfl rfl rfl⟩

end PromMacros
